import Mathlib

/-!
Verification of the `fpreputils` repository (two source files:
`setup.py` and `fpreputils/__init__.py`) against its natural-language
specification.

The build descriptor `setup.py` is:

  bin_scripts = glob.glob("bin/*")
  setup(name="fpreputils", version="0.1", packages=find_packages(),
        install_requires=[], include_package_data=True, scripts=bin_scripts)

The initializer `fpreputils/__init__.py` is:

  from importlib.metadata import version
  __version__ = version("fpreputils")
  from . import fmriprep
  __all__ = ["fmriprep"]

We embed both shallowly: the filesystem at build time is an explicit
structure; `glob.glob` is implemented with an fnmatch-style matcher
together with CPython's rule that a `*` pattern does not match names
beginning with a dot; the import-time behaviour is a function from an
environment (installed-distribution metadata plus submodule
availability) to `Except`.
-/

/-- A directory entry: a name plus whether it is a directory.
`glob` matches by name only, so the `isDir` flag exists precisely to
show it is ignored. -/
structure FSEntry where
  name : String
  isDir : Bool
  deriving DecidableEq

/-- The parts of the filesystem state that `setup.py` can see: the
listing of `bin/`, the listing of `shell/` (mentioned in the source
comment but never globbed), and the top-level package directories that
setuptools' `find_packages()` would discover. -/
structure FileSystem where
  bin : List FSEntry
  shell : List FSEntry
  pkgs : List String
  deriving DecidableEq

/-- All suffixes of a list, longest first, ending with `[]`.  Used to
give `*` in a pattern its "match any run of characters" meaning. -/
def charTails : List Char → List (List Char)
  | [] => [[]]
  | c :: cs => (c :: cs) :: charTails cs

/-- fnmatch-style matching of a glob pattern against a name, both as
character lists: `*` matches any (possibly empty) run of characters,
`?` matches any single character, every other character matches
itself.  (The pattern used by `setup.py` is `*`; character classes are
not needed.) -/
def fnmatchChars : List Char → List Char → Bool
  | [], s => s.isEmpty
  | '*' :: ps, s => (charTails s).any (fun t => fnmatchChars ps t)
  | '?' :: ps, s =>
      match s with
      | [] => false
      | _ :: cs => fnmatchChars ps cs
  | p :: ps, s =>
      match s with
      | [] => false
      | c :: cs => p == c && fnmatchChars ps cs

/-- CPython's `glob._ishidden`: a name is hidden when it begins with a
dot. -/
def isHiddenName (s : String) : Bool :=
  match s.data with
  | [] => false
  | c :: _ => c == '.'

/-- Whether `glob.glob` lets pattern `pat` select entry name `name`:
fnmatch succeeds and, unless the pattern itself starts with a dot,
hidden names are excluded. -/
def globMatch (pat name : String) : Bool :=
  (isHiddenName pat || !isHiddenName name) && fnmatchChars pat.data name.data

/-- The directory listing `glob` consults for a literal directory
prefix: only `bin/` and `shell/` exist in the model; any other name is
an absent directory. -/
def lookupDir (fs : FileSystem) (d : String) : List FSEntry :=
  if d = "bin" then fs.bin else if d = "shell" then fs.shell else []

/-- `glob.glob(d ++ "/" ++ pat)` for a literal directory `d` and a
basename pattern `pat`: list `d`, keep the entries whose name the
pattern selects, and rejoin the directory prefix, preserving the
listing order. -/
def glob_glob (fs : FileSystem) (d pat : String) : List String :=
  ((lookupDir fs d).filter (fun e => globMatch pat e.name)).map
    (fun e => d ++ "/" ++ e.name)

/-- `bin_scripts = glob.glob("bin/*")` from `setup.py`. -/
def bin_scripts (fs : FileSystem) : List String :=
  glob_glob fs "bin" "*"

/-- setuptools' `find_packages()`: not part of this repository, so its
result is taken directly from the filesystem state. -/
def find_packages (fs : FileSystem) : List String :=
  fs.pkgs

/-- The keyword arguments `setup.py` hands to `setuptools.setup`. -/
structure SetupArgs where
  name : String
  version : String
  packages : List String
  install_requires : List String
  include_package_data : Bool
  scripts : List String
  deriving DecidableEq

/-- Running `setup.py`: the whole build descriptor, as a function of
the filesystem state and of the process command line `argv` (which the
descriptor itself never reads — the commands in `argv` are consumed by
setuptools, not by this file). -/
def setup_py (fs : FileSystem) (_argv : List String) : SetupArgs :=
  { name := "fpreputils"
  , version := "0.1"
  , packages := find_packages fs
  , install_requires := []
  , include_package_data := true
  , scripts := bin_scripts fs }

/-- The paths of all entries present under `bin/`, hidden or not:
"the set of files present under `bin/`" in the spec's words. -/
def bin_all_paths (fs : FileSystem) : List String :=
  fs.bin.map (fun e => "bin/" ++ e.name)

/- ### Import-time model of `fpreputils/__init__.py` -/

/-- An exception escaping the import of `fpreputils`: either whatever
`importlib.metadata.version` raised (carried verbatim as a payload),
or the failure of `from . import fmriprep`. -/
inductive PyErr where
  | metadataError (e : String)
  | moduleImportError (mod : String)
  deriving DecidableEq

/-- The runtime environment the initializer consults: the installed
distributions' metadata (a version lookup that either returns the
recorded version string or raises), and which submodules can
be imported successfully. -/
structure PyEnv where
  metadata : String → Except String String
  moduleOk : String → Bool

/-- The module object produced by a successful import: its
`__version__` string, whether the name `fmriprep` is bound as an
attribute, and its `__all__` list. -/
structure PyModule where
  version_attr : String
  has_fmriprep : Bool
  all_attr : List String
  deriving DecidableEq

/-- Executing `fpreputils/__init__.py` top to bottom:
`__version__ = version("fpreputils")` first (propagating its exception
on failure), then `from . import fmriprep` (failing the import if the
submodule cannot be imported), then `__all__ = ["fmriprep"]`. -/
def fpreputils_import (env : PyEnv) : Except PyErr PyModule :=
  match env.metadata "fpreputils" with
  | .error e => .error (.metadataError e)
  | .ok v =>
      if env.moduleOk "fpreputils.fmriprep" then
        .ok { version_attr := v, has_fmriprep := true, all_attr := ["fmriprep"] }
      else
        .error (.moduleImportError "fpreputils.fmriprep")

/-- Whether an import attempt succeeded. -/
def isImportOk (r : Except PyErr PyModule) : Bool :=
  match r with
  | .ok _ => true
  | .error _ => false

/-- "Properly installed with metadata" (spec section 8): the
distribution metadata for `fpreputils` is present and records a valid
(hence non-empty) version string, and the package's own `fmriprep`
submodule is importable. -/
def properlyInstalled (env : PyEnv) : Prop :=
  (∃ v, env.metadata "fpreputils" = .ok v ∧ v ≠ "") ∧
    env.moduleOk "fpreputils.fmriprep" = true

/- ### Concrete states used as witnesses and counterexamples -/

/-- A `bin/` holding exactly `run.sh` and `check.sh`. -/
def fsRunCheck : FileSystem :=
  { bin := [⟨"run.sh", false⟩, ⟨"check.sh", false⟩], shell := [], pkgs := ["fpreputils"] }

/-- A `bin/` holding a single hidden file. -/
def fsHidden : FileSystem :=
  { bin := [⟨".hidden", false⟩], shell := [], pkgs := ["fpreputils"] }

/-- A `bin/` mixing a regular file, a subdirectory and a hidden file. -/
def fsMix : FileSystem :=
  { bin := [⟨"run.sh", false⟩, ⟨"sub", true⟩, ⟨".cfg", false⟩],
    shell := [⟨"tool.sh", false⟩], pkgs := ["fpreputils"] }

/-- A healthy runtime environment: metadata present, submodule importable. -/
def envGood : PyEnv :=
  { metadata := fun _ => .ok "0.1", moduleOk := fun _ => true }

/-- Metadata lookup raises; submodule would be importable. -/
def envNoMeta : PyEnv :=
  { metadata := fun _ => .error "PackageNotFoundError: fpreputils"
  , moduleOk := fun _ => true }

/-- Metadata present, but the `fmriprep` submodule is missing. -/
def envNoModule : PyEnv :=
  { metadata := fun _ => .ok "0.1", moduleOk := fun _ => false }

/-- A filesystem state with the same `bin/` listing as `fsMix` but a
different `shell/` listing and package set. -/
def fsMixAlt : FileSystem :=
  { bin := fsMix.bin, shell := [], pkgs := [] }

/- ### Helper lemmas about the glob machinery -/

/-- The single pattern `*` matches every name. -/
theorem fnmatch_star (s : List Char) : fnmatchChars ['*'] s = true := by
  induction s with
  | nil => rfl
  | cons c cs ih =>
      show (charTails (c :: cs)).any (fun t => fnmatchChars [] t) = true
      rw [charTails, List.any_cons]
      have h1 : fnmatchChars [] (c :: cs) = false := rfl
      rw [h1, Bool.false_or]
      exact ih

/-- Under `glob`, the pattern `*` selects exactly the non-hidden names. -/
theorem globMatch_star (name : String) : globMatch "*" name = !isHiddenName name := by
  have hd : "*".data = ['*'] := rfl
  unfold globMatch
  rw [hd, fnmatch_star]
  have h2 : isHiddenName "*" = false := rfl
  rw [h2]
  simp

/-- Closed form of `bin_scripts`: the non-hidden entries of `bin/`, in
listing order, each with the `bin/` prefix restored. -/
theorem bin_scripts_eq (fs : FileSystem) :
    bin_scripts fs =
      (fs.bin.filter (fun e => !isHiddenName e.name)).map (fun e => "bin/" ++ e.name) := by
  unfold bin_scripts glob_glob lookupDir
  simp [globMatch_star]

/-- Appending to a fixed front string is injective. -/
theorem str_append_cancel (p a b : String) (h : p ++ a = p ++ b) : a = b := by
  have hd := congrArg String.data h
  simp [String.data_append] at hd
  exact String.ext hd

/-- The script list computed from a `bin/` listing factors through the
entry names alone. -/
theorem scriptsOfNames_eq (l : List FSEntry) :
    (l.filter (fun e => !isHiddenName e.name)).map (fun e => "bin/" ++ e.name)
      = ((l.map FSEntry.name).filter (fun s => !isHiddenName s)).map (fun s => "bin/" ++ s) := by
  induction l with
  | nil => rfl
  | cons e t ih => by_cases h : isHiddenName e.name <;> simp [h, ih]

/-- Membership in the script list, characterised by the `bin/` entries. -/
theorem mem_bin_scripts (fs : FileSystem) (q : String) :
    q ∈ bin_scripts fs ↔
      ∃ e, e ∈ fs.bin ∧ isHiddenName e.name = false ∧ q = "bin/" ++ e.name := by
  rw [bin_scripts_eq]
  simp [List.mem_map, List.mem_filter]
  constructor
  · rintro ⟨e, ⟨he, hh⟩, hq⟩
    exact ⟨e, he, hh, hq.symm⟩
  · rintro ⟨e, he, hh, hq⟩
    exact ⟨e, ⟨he, hh⟩, hq.symm⟩

/- ### Claim C1 -/

/-- C1, counterexample: with `bin/` holding only the hidden file
`.hidden`, that file is present under `bin/` but absent from the
scripts list, so the scripts list does not equal the set of files
present under `bin/`. -/
theorem C1_hidden_file_counterexample :
    "bin/.hidden" ∈ bin_all_paths fsHidden ∧ "bin/.hidden" ∉ bin_scripts fsHidden ∧
      bin_scripts fsHidden ≠ bin_all_paths fsHidden := by decide

/-- C1, amended: for every contents of `bin/`, the scripts list passed
to the packaging call equals the list of non-hidden entries present
under `bin/` (names not beginning with a dot), in listing order; in
particular a `bin/` containing exactly `run.sh` and `check.sh` yields
a two-element scripts list containing exactly those two paths. -/
theorem C1_scripts_eq_nonhidden_entries :
    (∀ fs : FileSystem, bin_scripts fs =
        (fs.bin.filter (fun e => !isHiddenName e.name)).map (fun e => "bin/" ++ e.name)) ∧
      bin_scripts fsRunCheck = ["bin/run.sh", "bin/check.sh"] :=
  ⟨bin_scripts_eq, by decide⟩

/- ### Claim C2 -/

/-- C2, counterexample: in an environment where the metadata lookup
for `fpreputils` succeeds but the `fmriprep` submodule cannot
be imported, the package import still fails, so a missing metadata
entry is not the only failure mode, refuting the claimed equivalence. -/
theorem C2_submodule_failure_counterexample :
    isImportOk (fpreputils_import envNoModule) = false ∧
      envNoModule.metadata "fpreputils" = .ok "0.1" := ⟨rfl, rfl⟩

/-- C2, amended: importing the package fails exactly when the metadata
lookup for `fpreputils` raises or the `fmriprep` submodule import
fails; when the metadata lookup raises, the import propagates exactly
the exception raised by the metadata-lookup mechanism, with no
recovery or retry. -/
theorem C2_failure_modes_amended (env : PyEnv) :
    (isImportOk (fpreputils_import env) = false ↔
      ((∃ e, env.metadata "fpreputils" = .error e) ∨
        env.moduleOk "fpreputils.fmriprep" = false)) ∧
    (∀ e, env.metadata "fpreputils" = .error e →
      fpreputils_import env = .error (.metadataError e)) := by
  cases hm : env.metadata "fpreputils" with
  | error e =>
      constructor
      · simp [fpreputils_import, isImportOk, hm]
      · intro e2 he
        injection he with h2
        subst h2
        simp [fpreputils_import, hm]
  | ok v =>
      constructor
      · cases hmod : env.moduleOk "fpreputils.fmriprep" <;>
          simp [fpreputils_import, isImportOk, hm, hmod]
      · intro e2 he
        exact absurd he (by simp)

/-- C2, witness: in an environment whose metadata lookup raises
`PackageNotFoundError`, the import propagates exactly that error. -/
theorem C2_failure_modes_amended_witness :
    fpreputils_import envNoMeta
      = .error (.metadataError "PackageNotFoundError: fpreputils") :=
  (C2_failure_modes_amended envNoMeta).2 _ rfl

/- ### Claim C3 -/

/-- C3: whenever the package is properly installed with metadata,
the import succeeds and the resulting module's `__version__` is a
non-empty string equal to the version recorded in the installed
metadata. -/
theorem C3_properly_installed_import_ok (env : PyEnv) (h : properlyInstalled env) :
    ∃ m : PyModule, fpreputils_import env = .ok m ∧
      m.version_attr ≠ "" ∧ env.metadata "fpreputils" = .ok m.version_attr := by
  obtain ⟨⟨v, hv, hne⟩, hmod⟩ := h
  refine ⟨⟨v, true, ["fmriprep"]⟩, ?_, hne, hv⟩
  simp [fpreputils_import, hv, hmod]

/-- C3, witness: the healthy environment `envGood` satisfies the
conclusion. -/
theorem C3_properly_installed_import_ok_witness :
    ∃ m : PyModule, fpreputils_import envGood = .ok m ∧
      m.version_attr ≠ "" ∧ envGood.metadata "fpreputils" = .ok m.version_attr :=
  C3_properly_installed_import_ok envGood ⟨⟨"0.1", rfl, by decide⟩, rfl⟩

/- ### Claim C4 -/

/-- C4: after any successful import of the package, the name
`fmriprep` is bound as an attribute of the resulting module. -/
theorem C4_fmriprep_bound (env : PyEnv) (m : PyModule)
    (h : fpreputils_import env = .ok m) : m.has_fmriprep = true := by
  cases hm : env.metadata "fpreputils" with
  | error e => simp [fpreputils_import, hm] at h
  | ok v =>
      cases hmod : env.moduleOk "fpreputils.fmriprep" <;>
        simp [fpreputils_import, hm, hmod] at h
      rw [← h]

/-- C4, witness: the module produced in `envGood` has the `fmriprep`
attribute. -/
theorem C4_fmriprep_bound_witness :
    PyModule.has_fmriprep ⟨"0.1", true, ["fmriprep"]⟩ = true :=
  C4_fmriprep_bound envGood ⟨"0.1", true, ["fmriprep"]⟩ rfl

/- ### Claim C5 -/

/-- C5: for every filesystem state and every command line, `setup.py`
passes to the packaging call exactly the static `name` and `version`,
the discovered `packages`, an empty `install_requires`,
`include_package_data`, and a scripts list produced by globbing
`bin/*` — and the whole argument record is independent of the command
line, since the descriptor reads no CLI flags of its own. -/
theorem C5_setup_kwargs (fs : FileSystem) (argv argv2 : List String) :
    setup_py fs argv =
      { name := "fpreputils", version := "0.1", packages := find_packages fs,
        install_requires := [], include_package_data := true,
        scripts := glob_glob fs "bin" "*" } ∧
      setup_py fs argv = setup_py fs argv2 := ⟨rfl, rfl⟩

/- ### Claim C6 -/

/-- C6: the scripts list handed to the packaging call is exactly the
list the glob returned — element for element, in the same order, with
nothing validated, filtered, transformed, reordered or removed in
between. -/
theorem C6_scripts_passed_unchanged (fs : FileSystem) (argv : List String) :
    (setup_py fs argv).scripts = glob_glob fs "bin" "*" := rfl

/- ### Claim C7 -/

/-- C7: any successfully imported module has `__all__` equal to the
one-element list `["fmriprep"]`, and `__version__` (present as an
attribute of the module) is not listed in `__all__`. -/
theorem C7_all_exports (env : PyEnv) (m : PyModule)
    (h : fpreputils_import env = .ok m) :
    m.all_attr = ["fmriprep"] ∧ "__version__" ∉ m.all_attr := by
  cases hm : env.metadata "fpreputils" with
  | error e => simp [fpreputils_import, hm] at h
  | ok v =>
      cases hmod : env.moduleOk "fpreputils.fmriprep" <;>
        simp [fpreputils_import, hm, hmod] at h
      rw [← h]
      refine ⟨rfl, ?_⟩
      show "__version__" ∉ ["fmriprep"]
      decide

/-- C7, witness: the module produced in `envGood` exports exactly
`fmriprep`. -/
theorem C7_all_exports_witness :
    PyModule.all_attr ⟨"0.1", true, ["fmriprep"]⟩ = ["fmriprep"] ∧
      "__version__" ∉ PyModule.all_attr ⟨"0.1", true, ["fmriprep"]⟩ :=
  C7_all_exports envGood ⟨"0.1", true, ["fmriprep"]⟩ rfl

/- ### Claim C8 -/

/-- C8: an entry of `bin/` appears in the scripts list exactly when
its name does not begin with a dot — subdirectories included, since
the glob matches by name only — and the scripts list is determined by
the entry names alone, not by any file-type information. -/
theorem C8_hidden_excluded_match_by_name :
    (∀ (fs : FileSystem) (e : FSEntry), e ∈ fs.bin →
        (("bin/" ++ e.name) ∈ bin_scripts fs ↔ isHiddenName e.name = false)) ∧
      (∀ fsA fsB : FileSystem, fsA.bin.map FSEntry.name = fsB.bin.map FSEntry.name →
        bin_scripts fsA = bin_scripts fsB) := by
  constructor
  · intro fs e he
    rw [mem_bin_scripts]
    constructor
    · rintro ⟨e2, _, hh2, hq⟩
      have hn : e2.name = e.name := str_append_cancel "bin/" _ _ hq.symm
      rw [← hn]; exact hh2
    · intro hh
      exact ⟨e, he, hh, rfl⟩
  · intro fsA fsB h
    rw [bin_scripts_eq, bin_scripts_eq, scriptsOfNames_eq, scriptsOfNames_eq, h]

/-- C8, witness: in `fsMix` the subdirectory `sub` is listed (it is
not hidden), and replacing the `isDir` flags, `shell/` listing and
package set leaves the scripts list unchanged. -/
theorem C8_hidden_excluded_match_by_name_witness :
    (("bin/" ++ "sub") ∈ bin_scripts fsMix ↔ isHiddenName "sub" = false) ∧
      bin_scripts fsMix = bin_scripts fsMixAlt :=
  ⟨C8_hidden_excluded_match_by_name.1 fsMix ⟨"sub", true⟩ (by decide),
   C8_hidden_excluded_match_by_name.2 fsMix fsMixAlt (by decide)⟩

/- ### Claim C9 -/

/-- C9: any two filesystem states that agree on the `bin/` listing
yield the same scripts list, whatever their `shell/` listings, package
sets or command lines — the scripts list depends only on `bin/`. -/
theorem C9_scripts_depend_only_on_bin (fsA fsB : FileSystem) (argv argv2 : List String)
    (h : fsA.bin = fsB.bin) :
    (setup_py fsA argv).scripts = (setup_py fsB argv2).scripts := by
  simp [setup_py, bin_scripts, glob_glob, lookupDir, h]

/-- C9, witness: `fsMix` and `fsMixAlt` differ in `shell/` and
packages but share `bin/`, and their scripts lists agree. -/
theorem C9_scripts_depend_only_on_bin_witness :
    (setup_py fsMix []).scripts = (setup_py fsMixAlt ["install"]).scripts :=
  C9_scripts_depend_only_on_bin fsMix fsMixAlt [] ["install"] rfl

/- ### Claim C10 -/

/-- C10: the metadata lookup runs before the submodule import — if it
raises, the result is its error regardless of whether the submodule
could have been imported (the submodule import is never reached); and
if it succeeds while the `fmriprep` submodule cannot be imported, the
package import as a whole fails with the submodule's import error. -/
theorem C10_version_before_submodule (env : PyEnv) :
    (∀ e, env.metadata "fpreputils" = .error e →
        ∀ f : String → Bool,
          fpreputils_import { env with moduleOk := f } = .error (.metadataError e)) ∧
      (∀ v, env.metadata "fpreputils" = .ok v →
        env.moduleOk "fpreputils.fmriprep" = false →
          fpreputils_import env = .error (.moduleImportError "fpreputils.fmriprep")) := by
  constructor
  · intro e he f
    simp [fpreputils_import, he]
  · intro v hv hmod
    simp [fpreputils_import, hv, hmod]

/-- C10, witness: both branches at concrete environments — failing
metadata dominates any submodule availability, and a missing submodule
fails the import even with good metadata. -/
theorem C10_version_before_submodule_witness :
    fpreputils_import { envNoMeta with moduleOk := fun _ => false }
        = .error (.metadataError "PackageNotFoundError: fpreputils") ∧
      fpreputils_import envNoModule = .error (.moduleImportError "fpreputils.fmriprep") :=
  ⟨(C10_version_before_submodule envNoMeta).1 _ rfl _,
   (C10_version_before_submodule envNoModule).2 "0.1" rfl rfl⟩
